import Mathlib

/-!
Shallow embedding of the UDF Ansible inventory plugins
(plugins/inventory/udf.py and plugins/inventory/udf_inventory.py).

JSON values model the raw host records; Python None is modelled as jnull.
Warnings and errors emitted through the display object are collected in
LogMsg lists; uncaught Python exceptions are modelled with Except PyErr.
-/

/-- A JSON value, as produced by json.loads. Python None is jnull. -/
inductive JValue where
  | jnull
  | jbool (b : Bool)
  | jnum (n : Int)
  | jstr (s : String)
  | jarr (xs : List JValue)
  | jobj (fields : List (String × JValue))

/-- Python truthiness of a value (bool(v)). -/
def truthy : JValue → Bool
  | .jnull => false
  | .jbool b => b
  | .jnum n => n != 0
  | .jstr s => s != ""
  | .jarr xs => !xs.isEmpty
  | .jobj fs => !fs.isEmpty

/-- Truthiness of an extractor result: Python None is falsy. -/
def optTruthy : Option JValue → Bool
  | none => false
  | some v => truthy v

/-- Python d[k] for a string key, collapsed to Option: a missing key
(KeyError) and a non-object receiver (TypeError) both yield none, which is
faithful wherever the caller catches both exception classes. Records have
unique keys, so first-match lookup agrees with a Python dict. -/
def getKey (j : JValue) (k : String) : Option JValue :=
  match j with
  | .jobj fs => fs.lookup k
  | _ => none

/-- Python xs[i] for an integer index, collapsed to Option: IndexError on a
short list and TypeError/KeyError on non-list receivers all yield none,
faithful wherever the caller catches those exception classes. -/
def getIdx (j : JValue) (i : Nat) : Option JValue :=
  match j with
  | .jarr xs => xs.get? i
  | _ => none

/-- A message sent to the display object. -/
inductive LogMsg where
  | warn (s : String)
  | err (s : String)

/-- An uncaught Python exception. -/
inductive PyErr where
  | keyError (k : String)
  | typeError
  | attributeError
  | ansibleError (msg : String)

/-- The external inventory sink: hosts, per-host variables, groups and
group memberships, each recorded in call order. -/
structure Inventory where
  hosts : List JValue
  vars : List (JValue × String × JValue)
  groups : List JValue
  memberships : List (JValue × JValue)

def emptyInventory : Inventory :=
  { hosts := [], vars := [], groups := [], memberships := [] }

/-- inventory.set_variable(hostname, key, value). -/
def setVar (inv : Inventory) (hn : JValue) (k : String) (v : JValue) : Inventory :=
  { inv with vars := inv.vars ++ [(hn, k, v)] }

/-- inventory.add_host(host=hostname). -/
def addHost (inv : Inventory) (hn : JValue) : Inventory :=
  { inv with hosts := inv.hosts ++ [hn] }

/-- inventory.add_group(group=g) followed by inventory.add_host(group=g, host=hn). -/
def addGroupMember (inv : Inventory) (g hn : JValue) : Inventory :=
  { inv with groups := inv.groups ++ [g], memberships := inv.memberships ++ [(g, hn)] }

/-- Python s.lower() (ASCII case mapping suffices for the fields involved). -/
def pyLower (s : String) : String :=
  ⟨s.data.map Char.toLower⟩

/-- Python s.replace(a, b) for a single-character pattern and replacement,
which is exactly how the source uses str.replace. -/
def pyReplaceChar (s : String) (a b : Char) : String :=
  ⟨s.data.map (fun c => if c = a then b else c)⟩

/-- osName.replace(" ", "_").replace(".", "_").lower() from
extract_os_name_for_group. -/
def normalize_os (s : String) : String :=
  pyLower (pyReplaceChar (pyReplaceChar s ' ' '_') '.' '_')

/-- Outcome of the single HTTP fetch in _fetch_information, as seen by the
code after open_url / read / json.loads. -/
inductive FetchResult where
  | transportError (emsg : String)
  | badEncoding
  | badJson
  | ok (payload : JValue)

namespace Udf
/-! Embedding of plugins/inventory/udf.py (class InventoryModule). -/

def extract_private_ipv4 (h : JValue) : Option JValue × List LogMsg :=
  match getKey h "mgmtIp" with
  | some v => (some v, [])
  | none => (none, [.warn "An error happened while extracting private IPv4 address. Information skipped."])

def extract_internal_ssh_port (h : JValue) : Option JValue × List LogMsg :=
  match (getKey h "accessMethods").bind (fun a =>
          (getKey a "ssh").bind (fun s =>
            (getIdx s 0).bind (fun m => getKey m "internalPort"))) with
  | some v => (some v, [])
  | none => (none, [])

def extract_name (h : JValue) : Option JValue × List LogMsg :=
  match getKey h "name" with
  | some v => (some v, [])
  | none => (none, [.warn "An error happened while extracting name. Information skipped."])

def extract_id (h : JValue) : Option JValue × List LogMsg :=
  match getKey h "id" with
  | some v => (some v, [])
  | none => (none, [.warn "An error happened while extracting id. Information skipped."])

def extract_os_name (h : JValue) : Option JValue × List LogMsg :=
  match getKey h "osName" with
  | some v => (some v, [])
  | none => (none, [.warn "An error happened while extracting OS name. Information skipped."])

/-- extract_os_name_for_group. The except clause catches only KeyError and
TypeError, so when osName is present but not a string the .replace call
raises an uncaught AttributeError. -/
def extract_os_name_for_group (h : JValue) : Except PyErr (Option JValue × List LogMsg) :=
  match getKey h "osName" with
  | some (.jstr s) => .ok (some (.jstr (normalize_os s)), [])
  | some _ => .error .attributeError
  | none => .ok (none, [.warn "An error happened while extracting OS name for group. Information skipped."])

/-- The self.extractors dispatch dict built in parse; indexing it with an
unknown key raises KeyError. -/
def extractors : String → Option (JValue → Option JValue × List LogMsg)
  | "private_ipv4" => some extract_private_ipv4
  | "id" => some extract_id
  | _ => none

/-- The self.group_extractors dispatch dict built in parse. -/
def group_extractors : String → Option (JValue → Except PyErr (Option JValue × List LogMsg))
  | "os" => some extract_os_name_for_group
  | _ => none

/-- _filter_host: the extractor is called once for the truthiness check and
a second time to produce the returned value. -/
def filter_host (h : JValue) (pref : String) : Except PyErr (Option JValue × List LogMsg) :=
  match extractors pref with
  | none => .error (.keyError pref)
  | some f =>
    let r1 := f h
    if optTruthy r1.1 then
      let r2 := f h
      .ok (r2.1, r1.2 ++ r2.2)
    else
      .ok (none, r1.2)

/-- One guarded set_variable of _fill_host_variables: the check extractor is
always called, the value extractor only when the check result is truthy. -/
def fillStep (st : Inventory × List LogMsg) (hn : JValue) (k : String)
    (check val : Option JValue × List LogMsg) : Inventory × List LogMsg :=
  if optTruthy check.1 then
    (setVar st.1 hn k (val.1.getD .jnull), st.2 ++ check.2 ++ val.2)
  else
    (st.1, st.2 ++ check.2)

/-- _fill_host_variables. The id slot checks extract_id but stores the
result of extract_name, exactly as in the source. -/
def fill_host_variables (inv : Inventory) (hn h : JValue) : Inventory × List LogMsg :=
  let s1 := fillStep (inv, []) hn "private_ipv4" (extract_private_ipv4 h) (extract_private_ipv4 h)
  let s2 := fillStep s1 hn "internal_ssh_port" (extract_internal_ssh_port h) (extract_internal_ssh_port h)
  let s3 := fillStep s2 hn "name" (extract_name h) (extract_name h)
  let s4 := fillStep s3 hn "id" (extract_id h) (extract_name h)
  fillStep s4 hn "os_name" (extract_os_name h) (extract_os_name h)

/-- The group loop at the end of do_server_inventory: an unknown dimension
warns and returns from the whole function, an absent or falsy group label
also returns, otherwise the group and the membership are added and the loop
continues. -/
def do_group_loop (inv : Inventory) (hn h : JValue) :
    List String → Except PyErr (Inventory × List LogMsg)
  | [] => .ok (inv, [])
  | g :: gs =>
    match group_extractors g with
    | none => .ok (inv, [.warn ("Invalid group name " ++ g ++ " specified.")])
    | some f =>
      match f h with
      | .error e => .error e
      | .ok (gv, w) =>
        match gv with
        | some gl =>
          if truthy gl then
            match do_group_loop (addGroupMember inv gl hn) hn h gs with
            | .error e => .error e
            | .ok (inv2, w2) => .ok (inv2, w ++ w2)
          else
            .ok (inv, w)
        | none => .ok (inv, w)

/-- do_server_inventory. -/
def do_server_inventory (inv : Inventory) (h : JValue) (pref : String)
    (gprefs : List String) : Except PyErr (Inventory × List LogMsg) :=
  match filter_host h pref with
  | .error e => .error e
  | .ok (hn?, w1) =>
    match hn? with
    | none => .ok (inv, w1)
    | some hn =>
      if truthy hn then
        let inv1 := addHost inv hn
        let (inv2, w2) := fill_host_variables inv1 hn h
        match do_group_loop inv2 hn h gprefs with
        | .error e => .error e
        | .ok (inv3, w3) => .ok (inv3, w1 ++ w2 ++ w3)
      else
        .ok (inv, w1)

/-- urljoin(API_ENDPOINT, "deployment"). -/
def servers_url : String := "http://metadata.udf/deployment"

/-- _fetch_information: a transport failure is displayed and yields None,
a bad encoding or a non-JSON body raises AnsibleError. -/
def fetch_information (fr : FetchResult) (url : String) :
    Except PyErr (Option JValue × List LogMsg) :=
  match fr with
  | .transportError emsg => .ok (none, [.err ("An error happened while fetching: " ++ url ++ " " ++ emsg)])
  | .badEncoding => .error (.ansibleError "Incorrect encoding of fetched payload from UDF servers")
  | .badJson => .error (.ansibleError "Incorrect JSON payload")
  | .ok p => .ok (some p, [])

/-- Python d[k] where the exception is not caught by the caller. -/
def getKeyExc (j : JValue) (k : String) : Except PyErr JValue :=
  match j with
  | .jobj fs =>
    match fs.lookup k with
    | some v => .ok v
    | none => .error (.keyError k)
  | _ => .error .typeError

/-- The loop over deployment components at the end of parse. -/
def server_loop (inv : Inventory) (pref : String) (gprefs : List String)
    (logs : List LogMsg) : List JValue → Except PyErr (Inventory × List LogMsg)
  | [] => .ok (inv, logs)
  | c :: cs =>
    match do_server_inventory inv c pref gprefs with
    | .error e => .error e
    | .ok (inv2, w) => server_loop inv2 pref gprefs (logs ++ w) cs

/-- parse, from the fetch outcome on: fetch, the unguarded access to
deployment.components, then one do_server_inventory per component. Iterating
a non-list components value is modelled as TypeError (the payloads the
claims exercise always carry a list there). -/
def parse (fr : FetchResult) (pref : String) (gprefs : List String) :
    Except PyErr (Inventory × List LogMsg) :=
  match fetch_information fr servers_url with
  | .error e => .error e
  | .ok (dep?, logs) =>
    match dep? with
    | none => .ok (emptyInventory, logs ++ [.err "Error occurred. No inventory could be fetched from UDF API."])
    | some dep =>
      match getKeyExc dep "deployment" with
      | .error e => .error e
      | .ok d =>
        match getKeyExc d "components" with
        | .error e => .error e
        | .ok comps =>
          match comps with
          | .jarr xs => server_loop emptyInventory pref gprefs logs xs
          | _ => .error .typeError

end Udf

namespace UdfInv
/-! Embedding of plugins/inventory/udf_inventory.py (class InventoryModule).
The extractors shared with the udf variant have the same bodies; the
public_ipv4 extractor also reads mgmtIp, and extract_hostname reads id. -/

def extract_public_ipv4 (h : JValue) : Option JValue × List LogMsg :=
  match getKey h "mgmtIp" with
  | some v => (some v, [])
  | none => (none, [.warn "An error happened while extracting public IPv4 address. Information skipped."])

def extract_private_ipv4 (h : JValue) : Option JValue × List LogMsg :=
  match getKey h "mgmtIp" with
  | some v => (some v, [])
  | none => (none, [.warn "An error happened while extracting private IPv4 address. Information skipped."])

def extract_internal_ssh_port (h : JValue) : Option JValue × List LogMsg :=
  match (getKey h "accessMethods").bind (fun a =>
          (getKey a "ssh").bind (fun s =>
            (getIdx s 0).bind (fun m => getKey m "internalPort"))) with
  | some v => (some v, [])
  | none => (none, [])

def extract_name (h : JValue) : Option JValue × List LogMsg :=
  match getKey h "name" with
  | some v => (some v, [])
  | none => (none, [.warn "An error happened while extracting name. Information skipped."])

def extract_id (h : JValue) : Option JValue × List LogMsg :=
  match getKey h "id" with
  | some v => (some v, [])
  | none => (none, [.warn "An error happened while extracting id. Information skipped."])

def extract_os_name (h : JValue) : Option JValue × List LogMsg :=
  match getKey h "osName" with
  | some v => (some v, [])
  | none => (none, [.warn "An error happened while extracting OS name. Information skipped."])

def extract_hostname (h : JValue) : Option JValue × List LogMsg :=
  match getKey h "id" with
  | some v => (some v, [])
  | none => (none, [.warn "An error happened while extracting hostname. Information skipped."])

/-- The self.extractors dispatch dict built in parse; indexing it with an
unknown key raises KeyError. -/
def extractors : String → Option (JValue → Option JValue × List LogMsg)
  | "public_ipv4" => some extract_public_ipv4
  | "private_ipv4" => some extract_private_ipv4
  | "hostname" => some extract_hostname
  | _ => none

/-- The self.group_extractors dispatch dict built in parse: the os dimension
maps to extract_os_name, the verbatim (un-normalized) osName. -/
def group_extractors : String → Option (JValue → Option JValue × List LogMsg)
  | "os" => some extract_os_name
  | _ => none

/-- _filter_host over the ordered hostnames preference list: each iteration
indexes self.extractors with the current id (KeyError if unknown), calls the
extractor for the truthiness check and again for the returned value, and
falls through to the next preference otherwise. -/
def filter_host (h : JValue) : List String → Except PyErr (Option JValue × List LogMsg)
  | [] => .ok (none, [])
  | p :: ps =>
    match extractors p with
    | none => .error (.keyError p)
    | some f =>
      let r1 := f h
      if optTruthy r1.1 then
        let r2 := f h
        .ok (r2.1, r1.2 ++ r2.2)
      else
        match filter_host h ps with
        | .error e => .error e
        | .ok (v, w) => .ok (v, r1.2 ++ w)

/-- One guarded set_variable of _fill_host_variables. -/
def fillStep (st : Inventory × List LogMsg) (hn : JValue) (k : String)
    (check val : Option JValue × List LogMsg) : Inventory × List LogMsg :=
  if optTruthy check.1 then
    (setVar st.1 hn k (val.1.getD .jnull), st.2 ++ check.2 ++ val.2)
  else
    (st.1, st.2 ++ check.2)

/-- _fill_host_variables. As in the udf variant, the id slot checks
extract_id but stores the result of extract_name. -/
def fill_host_variables (inv : Inventory) (hn h : JValue) : Inventory × List LogMsg :=
  let s1 := fillStep (inv, []) hn "public_ipv4" (extract_public_ipv4 h) (extract_public_ipv4 h)
  let s2 := fillStep s1 hn "private_ipv4" (extract_private_ipv4 h) (extract_private_ipv4 h)
  let s3 := fillStep s2 hn "internal_ssh_port" (extract_internal_ssh_port h) (extract_internal_ssh_port h)
  let s4 := fillStep s3 hn "name" (extract_name h) (extract_name h)
  let s5 := fillStep s4 hn "id" (extract_id h) (extract_name h)
  fillStep s5 hn "os_name" (extract_os_name h) (extract_os_name h)

/-- The group loop at the end of do_server_inventory: this variant has no
membership guard, so indexing self.group_extractors with an unknown
dimension raises KeyError; an absent or falsy group label returns from the
whole function. -/
def do_group_loop (inv : Inventory) (hn h : JValue) :
    List String → Except PyErr (Inventory × List LogMsg)
  | [] => .ok (inv, [])
  | g :: gs =>
    match group_extractors g with
    | none => .error (.keyError g)
    | some f =>
      let (gv, w) := f h
      match gv with
      | some gl =>
        if truthy gl then
          match do_group_loop (addGroupMember inv gl hn) hn h gs with
          | .error e => .error e
          | .ok (inv2, w2) => .ok (inv2, w ++ w2)
        else
          .ok (inv, w)
      | none => .ok (inv, w)

/-- do_server_inventory. -/
def do_server_inventory (inv : Inventory) (h : JValue) (prefs : List String)
    (gprefs : List String) : Except PyErr (Inventory × List LogMsg) :=
  match filter_host h prefs with
  | .error e => .error e
  | .ok (hn?, w1) =>
    match hn? with
    | none => .ok (inv, w1)
    | some hn =>
      if truthy hn then
        let inv1 := addHost inv hn
        let (inv2, w2) := fill_host_variables inv1 hn h
        match do_group_loop inv2 hn h gprefs with
        | .error e => .error e
        | .ok (inv3, w3) => .ok (inv3, w1 ++ w2 ++ w3)
      else
        .ok (inv, w1)

end UdfInv

/-! Concrete records and payloads used by the concrete evaluations. -/

/-- The Scenario A component record. -/
def recA : JValue :=
  .jobj [("id", .jstr "h1"), ("name", .jstr "web1"), ("mgmtIp", .jstr "10.0.0.5"),
         ("osName", .jstr "CentOS 7")]

/-- The Scenario A deployment payload. -/
def payloadA : JValue :=
  .jobj [("deployment", .jobj [("components", .jarr [recA])])]

/-- A component whose osName is a number instead of a string. -/
def recBadOs : JValue := .jobj [("mgmtIp", .jstr "10.0.0.9"), ("osName", .jnum 5)]

/-- A payload whose first component has a non-string osName and whose second
component is well formed. -/
def payloadBad : JValue :=
  .jobj [("deployment", .jobj [("components", .jarr [recBadOs, recA])])]

/-- A component with an identity and an address but no name field. -/
def recNoName : JValue := .jobj [("id", .jstr "h1"), ("mgmtIp", .jstr "10.0.0.5")]

/-- A component with only an address. -/
def recNoSsh : JValue := .jobj [("mgmtIp", .jstr "10.0.0.5")]

/-- A component whose internal SSH port is the integer 0. -/
def recPortZero : JValue :=
  .jobj [("mgmtIp", .jstr "10.0.0.5"), ("name", .jstr "n"), ("id", .jstr "i"),
         ("osName", .jstr "o"),
         ("accessMethods", .jobj [("ssh", .jarr [.jobj [("internalPort", .jnum 0)]])])]

/-- Modelled from the spec: the hostname resolver iterates the preference
list in order and returns the first present extractor result, absent when
none match. Stated over the udf_inventory extractor set, to be compared
with the _filter_host of that source file. -/
def resolve_hostname_spec (h : JValue) : List String → Option JValue
  | [] => none
  | p :: ps =>
    match UdfInv.extractors p with
    | some f => if optTruthy (f h).1 then (f h).1 else resolve_hostname_spec h ps
    | none => resolve_hostname_spec h ps

/-! Helper lemmas shared by the claim theorems. -/

theorem filter_eq_resolve (h : JValue) : ∀ prefs : List String,
    (∀ p ∈ prefs, (UdfInv.extractors p).isSome) →
    ∃ w, UdfInv.filter_host h prefs = .ok (resolve_hostname_spec h prefs, w)
  | [] => fun _ => ⟨[], rfl⟩
  | p :: ps => fun hrec => by
    obtain ⟨f, hf⟩ := Option.isSome_iff_exists.mp (hrec p (List.mem_cons_self p ps))
    obtain ⟨w, hw⟩ := filter_eq_resolve h ps (fun q hq => hrec q (List.mem_cons_of_mem p hq))
    by_cases ht : optTruthy (f h).1 = true
    · exact ⟨(f h).2 ++ (f h).2, by simp [UdfInv.filter_host, resolve_hostname_spec, hf, ht]⟩
    · have ht2 : optTruthy (f h).1 = false := Bool.eq_false_iff.mpr ht
      exact ⟨(f h).2 ++ w, by simp [UdfInv.filter_host, resolve_hostname_spec, hf, ht2, hw]⟩

theorem resolve_none_iff (h : JValue) : ∀ prefs : List String,
    (resolve_hostname_spec h prefs = none ↔
      ∀ p ∈ prefs, ∀ f, UdfInv.extractors p = some f → optTruthy (f h).1 = false)
  | [] => by simp [resolve_hostname_spec]
  | p :: ps => by
    cases hf : UdfInv.extractors p with
    | none =>
      rw [show resolve_hostname_spec h (p :: ps) = resolve_hostname_spec h ps by
        simp [resolve_hostname_spec, hf]]
      rw [resolve_none_iff h ps]
      constructor
      · intro hall q hq g hg
        rcases List.mem_cons.mp hq with rfl | hq2
        · rw [hf] at hg; exact absurd hg (by simp)
        · exact hall q hq2 g hg
      · intro hall q hq g hg
        exact hall q (List.mem_cons_of_mem p hq) g hg
    | some f =>
      by_cases ht : optTruthy (f h).1 = true
      · rw [show resolve_hostname_spec h (p :: ps) = (f h).1 by
          simp [resolve_hostname_spec, hf, ht]]
        constructor
        · intro hnone
          rw [hnone] at ht
          exact absurd ht (by simp [optTruthy])
        · intro hall
          have := hall p (List.mem_cons_self p ps) f hf
          rw [ht] at this
          exact absurd this (by simp)
      · have ht2 : optTruthy (f h).1 = false := Bool.eq_false_iff.mpr ht
        rw [show resolve_hostname_spec h (p :: ps) = resolve_hostname_spec h ps by
          simp [resolve_hostname_spec, hf, ht2]]
        rw [resolve_none_iff h ps]
        constructor
        · intro hall q hq g hg
          rcases List.mem_cons.mp hq with rfl | hq2
          · rw [hf] at hg
            rw [Option.some.injEq] at hg
            rw [← hg]
            exact ht2
          · exact hall q hq2 g hg
        · intro hall q hq g hg
          exact hall q (List.mem_cons_of_mem p hq) g hg

theorem ssh_port_no_warning (h : JValue) : (Udf.extract_internal_ssh_port h).2 = [] := by
  unfold Udf.extract_internal_ssh_port
  split <;> rfl

theorem fill_hosts (inv : Inventory) (hn h : JValue) :
    (Udf.fill_host_variables inv hn h).1.hosts = inv.hosts := by
  simp only [Udf.fill_host_variables, Udf.fillStep, setVar]
  split_ifs <;> rfl

theorem fill_no_ssh_var (inv : Inventory) (hn h : JValue)
    (hssh : (Udf.extract_internal_ssh_port h).1 = none) :
    (Udf.fill_host_variables inv hn h).1.vars.filter (fun e => e.2.1 == "internal_ssh_port") =
      inv.vars.filter (fun e => e.2.1 == "internal_ssh_port") := by
  have habs : optTruthy (Udf.extract_internal_ssh_port h).1 = false := by rw [hssh]; rfl
  simp only [Udf.fill_host_variables, Udf.fillStep, setVar, habs]
  split_ifs <;> simp_all +decide [List.filter_append]

theorem normalize_os_ne_empty (s : String) (hs : s ≠ "") : normalize_os s ≠ "" := by
  intro hcontra
  apply hs
  have hd : (normalize_os s).data = [] := by rw [hcontra]
  simp only [normalize_os, pyLower, pyReplaceChar, List.map_eq_nil_iff] at hd
  cases s with
  | mk d =>
    have hd2 : d = [] := hd
    rw [hd2]

theorem udf_filter_absent (h : JValue) (pref : String) (f : JValue → Option JValue × List LogMsg)
    (hf : Udf.extractors pref = some f) (habs : optTruthy (f h).1 = false) :
    Udf.filter_host h pref = .ok (none, (f h).2) := by
  simp [Udf.filter_host, hf, habs]

/-- Claim C1: on the Scenario A payload with hostname preference
private_ipv4 and groups [os], the pass registers exactly one host named
10.0.0.5 in group centos_7 with variables private_ipv4, name, id and
os_name — but the id variable receives the name field web1, not the id
field h1, because the source guards on extract_id yet stores the result of
extract_name. This theorem evaluates the embedding at that input and
records that web1 differs from h1. -/
theorem c1_scenario_a_eval :
    Udf.parse (FetchResult.ok payloadA) "private_ipv4" ["os"] =
      .ok ({ hosts := [.jstr "10.0.0.5"],
             vars := [(.jstr "10.0.0.5", "private_ipv4", .jstr "10.0.0.5"),
                      (.jstr "10.0.0.5", "name", .jstr "web1"),
                      (.jstr "10.0.0.5", "id", .jstr "web1"),
                      (.jstr "10.0.0.5", "os_name", .jstr "CentOS 7")],
             groups := [.jstr "centos_7"],
             memberships := [(.jstr "centos_7", .jstr "10.0.0.5")] }, []) ∧
    ("web1" : String) ≠ "h1" :=
  ⟨rfl, by decide⟩

/-- Claim C2: the claim says every remaining group dimension is still
processed after an unknown or absent dimension and that the pass never
aborts. The code does neither: in the udf variant an unknown dimension
warns and returns from do_server_inventory so the valid os dimension that
follows is never processed, and in the udf_inventory variant an unknown
dimension raises KeyError, aborting the pass. -/
theorem c2_group_dimension_stops :
    (Udf.do_server_inventory emptyInventory recA "private_ipv4" ["bogus", "os"] =
      .ok ({ hosts := [.jstr "10.0.0.5"],
             vars := [(.jstr "10.0.0.5", "private_ipv4", .jstr "10.0.0.5"),
                      (.jstr "10.0.0.5", "name", .jstr "web1"),
                      (.jstr "10.0.0.5", "id", .jstr "web1"),
                      (.jstr "10.0.0.5", "os_name", .jstr "CentOS 7")],
             groups := [], memberships := [] },
           [.warn "Invalid group name bogus specified."])) ∧
    (UdfInv.do_server_inventory emptyInventory recA ["public_ipv4"] ["bogus"] =
      .error (.keyError "bogus")) :=
  ⟨rfl, rfl⟩

/-- Claim C3, counterexample: hostname resolution over a preference list
holding the unrecognized identifier bogus raises KeyError instead of
logging and skipping it. -/
theorem c3_unknown_hostname_pref_counterexample :
    UdfInv.filter_host recA ["bogus"] = .error (.keyError "bogus") :=
  rfl

/-- Claim C3, amended: for every host record, a hostname preference list
whose recognized leading entries all yield absent and which then holds an
unrecognized identifier makes _filter_host raise KeyError at that
identifier; nothing is logged or skipped. Only config-time choice
validation keeps such identifiers out of the list. -/
theorem c3_unknown_hostname_pref_keyerror (h : JValue) (l1 l2 : List String) (p : String)
    (hrec : ∀ q ∈ l1, (UdfInv.extractors q).isSome)
    (habs : ∀ q ∈ l1, ∀ f, UdfInv.extractors q = some f → optTruthy (f h).1 = false)
    (hunk : UdfInv.extractors p = none) :
    UdfInv.filter_host h (l1 ++ p :: l2) = .error (.keyError p) := by
  induction l1 with
  | nil => simp [UdfInv.filter_host, hunk]
  | cons q qs ih =>
    obtain ⟨f, hf⟩ := Option.isSome_iff_exists.mp (hrec q (List.mem_cons_self q qs))
    have hq : optTruthy (f h).1 = false := habs q (List.mem_cons_self q qs) f hf
    have ihr := ih (fun r hr => hrec r (List.mem_cons_of_mem q hr))
      (fun r hr g hg => habs r (List.mem_cons_of_mem q hr) g hg)
    simp [UdfInv.filter_host, hf, hq, ihr]

/-- Claim C3, witness for the amended theorem at the record with no fields
and the list [hostname, bogus]. -/
theorem c3_unknown_hostname_pref_keyerror_witness :
    UdfInv.filter_host (.jobj []) (["hostname"] ++ "bogus" :: []) = .error (.keyError "bogus") :=
  c3_unknown_hostname_pref_keyerror (.jobj []) ["hostname"] [] "bogus"
    (by
      intro q hq
      rcases List.mem_singleton.mp hq with rfl
      rfl)
    (by
      intro q hq f hf
      rcases List.mem_singleton.mp hq with rfl
      simp only [UdfInv.extractors, Option.some.injEq] at hf
      rw [← hf]
      rfl)
    rfl

/-- Claim C4: the claim says no extractor ever raises, even on a non-string
osName. The os-name-for-group extractor catches only KeyError and
TypeError, so a numeric or null osName makes the .replace call raise an
uncaught AttributeError. -/
theorem c4_os_group_extractor_raises :
    Udf.extract_os_name_for_group (.jobj [("osName", .jnum 5)]) = .error .attributeError ∧
    Udf.extract_os_name_for_group (.jobj [("osName", .jnull)]) = .error .attributeError :=
  ⟨rfl, rfl⟩

/-- Claim C5: for every host record and every preference list of recognized
extractor identifiers, _filter_host returns the result of the first
extractor in the list yielding a present (truthy) value, and returns absent
exactly when every extractor in the list yields absent. The resolver from
the source is compared against resolve_hostname_spec, written from the spec
wording. -/
theorem c5_first_preference_wins (h : JValue) (prefs : List String)
    (hrec : ∀ p ∈ prefs, (UdfInv.extractors p).isSome) :
    (∃ w, UdfInv.filter_host h prefs = .ok (resolve_hostname_spec h prefs, w)) ∧
    (resolve_hostname_spec h prefs = none ↔
      ∀ p ∈ prefs, ∀ f, UdfInv.extractors p = some f → optTruthy (f h).1 = false) :=
  ⟨filter_eq_resolve h prefs hrec, resolve_none_iff h prefs⟩

/-- Claim C5, witness at the Scenario A record with the preference list
[hostname, public_ipv4]. -/
theorem c5_first_preference_wins_witness :
    (∀ p ∈ ["hostname", "public_ipv4"], (UdfInv.extractors p).isSome) ∧
    ((∃ w, UdfInv.filter_host recA ["hostname", "public_ipv4"] =
        .ok (resolve_hostname_spec recA ["hostname", "public_ipv4"], w)) ∧
     (resolve_hostname_spec recA ["hostname", "public_ipv4"] = none ↔
        ∀ p ∈ ["hostname", "public_ipv4"], ∀ f, UdfInv.extractors p = some f →
          optTruthy (f recA).1 = false)) :=
  have hp : ∀ p ∈ ["hostname", "public_ipv4"], (UdfInv.extractors p).isSome := by
    intro p hmem
    rcases List.mem_cons.mp hmem with rfl | hmem2
    · rfl
    · rcases List.mem_singleton.mp hmem2 with rfl
      rfl
  ⟨hp, c5_first_preference_wins recA ["hostname", "public_ipv4"] hp⟩

/-- Claim C6: a record on which every configured hostname preference yields
an absent result contributes nothing to the inventory in either variant:
do_server_inventory returns the sink unchanged, so no host, variable, group
or membership is added. -/
theorem c6_no_partial_host (inv : Inventory) (h : JValue) (pref : String)
    (prefs gps1 gps2 : List String)
    (h1r : (Udf.extractors pref).isSome)
    (h1 : ∀ f, Udf.extractors pref = some f → optTruthy (f h).1 = false)
    (h2r : ∀ p ∈ prefs, (UdfInv.extractors p).isSome)
    (h2 : ∀ p ∈ prefs, ∀ f, UdfInv.extractors p = some f → optTruthy (f h).1 = false) :
    (∃ w, Udf.do_server_inventory inv h pref gps1 = .ok (inv, w)) ∧
    (∃ w, UdfInv.do_server_inventory inv h prefs gps2 = .ok (inv, w)) := by
  constructor
  · obtain ⟨f, hf⟩ := Option.isSome_iff_exists.mp h1r
    refine ⟨(f h).2, ?_⟩
    simp [Udf.do_server_inventory, udf_filter_absent h pref f hf (h1 f hf)]
  · obtain ⟨w, hw⟩ := filter_eq_resolve h prefs h2r
    have hres : resolve_hostname_spec h prefs = none := (resolve_none_iff h prefs).mpr h2
    refine ⟨w, ?_⟩
    rw [hres] at hw
    simp [UdfInv.do_server_inventory, hw]

/-- Claim C6, witness at the record with no fields, preference id for the
udf variant and [hostname] for the udf_inventory variant. -/
theorem c6_no_partial_host_witness :
    ((Udf.extractors "id").isSome ∧
     (∀ f, Udf.extractors "id" = some f → optTruthy (f (JValue.jobj [])).1 = false)) ∧
    ((∃ w, Udf.do_server_inventory emptyInventory (.jobj []) "id" ["os"] = .ok (emptyInventory, w)) ∧
     (∃ w, UdfInv.do_server_inventory emptyInventory (.jobj []) ["hostname"] ["os"] =
        .ok (emptyInventory, w))) :=
  have h1r : (Udf.extractors "id").isSome := rfl
  have h1 : ∀ f, Udf.extractors "id" = some f → optTruthy (f (JValue.jobj [])).1 = false := by
    intro f hf
    simp only [Udf.extractors, Option.some.injEq] at hf
    rw [← hf]
    rfl
  have h2r : ∀ p ∈ ["hostname"], (UdfInv.extractors p).isSome := by
    intro p hmem
    rcases List.mem_singleton.mp hmem with rfl
    rfl
  have h2 : ∀ p ∈ ["hostname"], ∀ f, UdfInv.extractors p = some f →
      optTruthy (f (JValue.jobj [])).1 = false := by
    intro p hmem f hf
    rcases List.mem_singleton.mp hmem with rfl
    simp only [UdfInv.extractors, Option.some.injEq] at hf
    rw [← hf]
    rfl
  ⟨⟨h1r, h1⟩,
   c6_no_partial_host emptyInventory (.jobj []) "id" ["hostname"] ["os"] ["os"] h1r h1 h2r h2⟩

/-- Claim C7, counterexample: in the udf_inventory variant the os dimension
dispatches to extract_os_name, so a host with osName CentOS 7 is grouped
under the verbatim label CentOS 7 and not under the normalized centos_7. -/
theorem c7_verbatim_group_label_counterexample :
    UdfInv.do_server_inventory emptyInventory recA ["public_ipv4"] ["os"] =
      .ok ({ hosts := [.jstr "10.0.0.5"],
             vars := [(.jstr "10.0.0.5", "public_ipv4", .jstr "10.0.0.5"),
                      (.jstr "10.0.0.5", "private_ipv4", .jstr "10.0.0.5"),
                      (.jstr "10.0.0.5", "name", .jstr "web1"),
                      (.jstr "10.0.0.5", "id", .jstr "web1"),
                      (.jstr "10.0.0.5", "os_name", .jstr "CentOS 7")],
             groups := [.jstr "CentOS 7"],
             memberships := [(.jstr "CentOS 7", .jstr "10.0.0.5")] }, []) ∧
    ("CentOS 7" : String) ≠ "centos_7" :=
  ⟨rfl, by decide⟩

/-- Claim C7, amended: in the udf variant the os dimension resolves to the
osName lowercased with spaces and periods replaced by underscores, and the
host is added to the group carrying that normalized label; the
udf_inventory variant instead groups under the verbatim osName. -/
theorem c7_normalized_group_udf (inv : Inventory) (h : JValue) (pref : String) (s : String)
    (hn : JValue) (w : List LogMsg)
    (hos : getKey h "osName" = some (.jstr s)) (hs : s ≠ "")
    (hfil : Udf.filter_host h pref = .ok (some hn, w)) (htr : truthy hn = true) :
    ∃ inv2 w2, Udf.do_server_inventory inv h pref ["os"] = .ok (inv2, w2) ∧
      JValue.jstr (normalize_os s) ∈ inv2.groups ∧
      (JValue.jstr (normalize_os s), hn) ∈ inv2.memberships := by
  have hgrp : Udf.extract_os_name_for_group h = .ok (some (.jstr (normalize_os s)), []) := by
    simp [Udf.extract_os_name_for_group, hos]
  have htg : truthy (JValue.jstr (normalize_os s)) = true := by
    simp [truthy, bne_iff_ne, normalize_os_ne_empty s hs]
  refine ⟨addGroupMember (Udf.fill_host_variables (addHost inv hn) hn h).1
            (.jstr (normalize_os s)) hn,
          w ++ (Udf.fill_host_variables (addHost inv hn) hn h).2 ++ ([] ++ []), ?_, ?_, ?_⟩
  · simp [Udf.do_server_inventory, hfil, htr, Udf.do_group_loop, Udf.group_extractors, hgrp, htg]
  · simp [addGroupMember]
  · simp [addGroupMember]

/-- Claim C7, witness for the amended theorem at the Scenario A record. -/
theorem c7_normalized_group_udf_witness :
    (getKey recA "osName" = some (.jstr "CentOS 7") ∧ ("CentOS 7" : String) ≠ "" ∧
     Udf.filter_host recA "private_ipv4" = .ok (some (.jstr "10.0.0.5"), []) ∧
     truthy (.jstr "10.0.0.5") = true) ∧
    (∃ inv2 w2, Udf.do_server_inventory emptyInventory recA "private_ipv4" ["os"] =
        .ok (inv2, w2) ∧
      JValue.jstr (normalize_os "CentOS 7") ∈ inv2.groups ∧
      (JValue.jstr (normalize_os "CentOS 7"), JValue.jstr "10.0.0.5") ∈ inv2.memberships) :=
  ⟨⟨rfl, by decide, rfl, rfl⟩,
   c7_normalized_group_udf emptyInventory recA "private_ipv4" "CentOS 7" (.jstr "10.0.0.5") []
     rfl (by decide) rfl rfl⟩

/-- Claim C8: a transport failure yields zero hosts with the failure
reported, and a non-JSON body aborts with AnsibleError, as the claim says;
but the fetch is not the only fatal condition: with a successfully fetched
component list, a record whose osName is not a string aborts the whole pass
with an uncaught AttributeError in the group loop instead of merely
excluding that record, so the following record is never processed. -/
theorem c8_fatality_eval :
    (Udf.parse (FetchResult.transportError "HTTP Error 500") "private_ipv4" ["os"] =
      .ok (emptyInventory,
           [.err "An error happened while fetching: http://metadata.udf/deployment HTTP Error 500",
            .err "Error occurred. No inventory could be fetched from UDF API."])) ∧
    (Udf.parse FetchResult.badJson "private_ipv4" ["os"] =
      .error (.ansibleError "Incorrect JSON payload")) ∧
    (Udf.parse (FetchResult.ok payloadBad) "private_ipv4" ["os"] = .error .attributeError) :=
  ⟨rfl, rfl, rfl⟩

/-- Claim C9: a record lacking the accessMethods.ssh[0].internalPort path
whose hostname resolves is still registered, gets no internal_ssh_port
variable, and the SSH-port extractor never warns, while the other udf
extractors all warn on a structural mismatch. -/
theorem c9_ssh_port_silent (inv : Inventory) (h hn : JValue) (pref : String) (w : List LogMsg)
    (hfil : Udf.filter_host h pref = .ok (some hn, w)) (htr : truthy hn = true)
    (hssh : (Udf.extract_internal_ssh_port h).1 = none) :
    (∀ h2 : JValue, (Udf.extract_internal_ssh_port h2).2 = []) ∧
    (∃ inv2 w2, Udf.do_server_inventory inv h pref [] = .ok (inv2, w2) ∧
      inv2.hosts = inv.hosts ++ [hn] ∧
      inv2.vars.filter (fun e => e.2.1 == "internal_ssh_port") =
        inv.vars.filter (fun e => e.2.1 == "internal_ssh_port")) ∧
    (∀ h2 : JValue, getKey h2 "mgmtIp" = none → (Udf.extract_private_ipv4 h2).2 ≠ []) ∧
    (∀ h2 : JValue, getKey h2 "name" = none → (Udf.extract_name h2).2 ≠ []) ∧
    (∀ h2 : JValue, getKey h2 "id" = none → (Udf.extract_id h2).2 ≠ []) ∧
    (∀ h2 : JValue, getKey h2 "osName" = none → (Udf.extract_os_name h2).2 ≠ []) := by
  refine ⟨ssh_port_no_warning, ?_, ?_, ?_, ?_, ?_⟩
  · refine ⟨(Udf.fill_host_variables (addHost inv hn) hn h).1,
            w ++ (Udf.fill_host_variables (addHost inv hn) hn h).2 ++ [], ?_, ?_, ?_⟩
    · simp [Udf.do_server_inventory, hfil, htr, Udf.do_group_loop]
    · rw [fill_hosts]
      rfl
    · rw [fill_no_ssh_var _ _ _ hssh]
      rfl
  · intro h2 hk
    simp [Udf.extract_private_ipv4, hk]
  · intro h2 hk
    simp [Udf.extract_name, hk]
  · intro h2 hk
    simp [Udf.extract_id, hk]
  · intro h2 hk
    simp [Udf.extract_os_name, hk]

/-- Claim C9, witness at the record holding only mgmtIp. -/
theorem c9_ssh_port_silent_witness :
    (Udf.filter_host recNoSsh "private_ipv4" = .ok (some (.jstr "10.0.0.5"), []) ∧
     truthy (.jstr "10.0.0.5") = true ∧
     (Udf.extract_internal_ssh_port recNoSsh).1 = none) ∧
    ((∀ h2 : JValue, (Udf.extract_internal_ssh_port h2).2 = []) ∧
     (∃ inv2 w2, Udf.do_server_inventory emptyInventory recNoSsh "private_ipv4" [] =
        .ok (inv2, w2) ∧
       inv2.hosts = emptyInventory.hosts ++ [.jstr "10.0.0.5"] ∧
       inv2.vars.filter (fun e => e.2.1 == "internal_ssh_port") =
         emptyInventory.vars.filter (fun e => e.2.1 == "internal_ssh_port")) ∧
     (∀ h2 : JValue, getKey h2 "mgmtIp" = none → (Udf.extract_private_ipv4 h2).2 ≠ []) ∧
     (∀ h2 : JValue, getKey h2 "name" = none → (Udf.extract_name h2).2 ≠ []) ∧
     (∀ h2 : JValue, getKey h2 "id" = none → (Udf.extract_id h2).2 ≠ []) ∧
     (∀ h2 : JValue, getKey h2 "osName" = none → (Udf.extract_os_name h2).2 ≠ [])) :=
  ⟨⟨rfl, rfl, rfl⟩,
   c9_ssh_port_silent emptyInventory recNoSsh (.jstr "10.0.0.5") "private_ipv4" [] rfl rfl rfl⟩

/-- Claim C10: truthiness does gate the hostname candidates (an empty-string
identity registers no host) and the internalPort 0 case (the variable is
not set), but a falsy extractor result can still be attached as a variable:
on a record with an id and no name, the id check is truthy while the stored
value comes from extract_name, so the id variable is set to null, a falsy
value. -/
theorem c10_truthiness_eval :
    (Udf.do_server_inventory emptyInventory recNoName "private_ipv4" [] =
      .ok ({ hosts := [.jstr "10.0.0.5"],
             vars := [(.jstr "10.0.0.5", "private_ipv4", .jstr "10.0.0.5"),
                      (.jstr "10.0.0.5", "id", .jnull)],
             groups := [], memberships := [] },
           [.warn "An error happened while extracting name. Information skipped.",
            .warn "An error happened while extracting name. Information skipped.",
            .warn "An error happened while extracting OS name. Information skipped."])) ∧
    truthy JValue.jnull = false ∧
    (Udf.do_server_inventory emptyInventory (.jobj [("mgmtIp", .jstr "")]) "private_ipv4" [] =
      .ok (emptyInventory, [])) ∧
    (Udf.extract_internal_ssh_port recPortZero = (some (.jnum 0), [])) ∧
    (Udf.fill_host_variables emptyInventory (.jstr "x") recPortZero =
      ({ hosts := [], vars := [(.jstr "x", "private_ipv4", .jstr "10.0.0.5"),
                               (.jstr "x", "name", .jstr "n"),
                               (.jstr "x", "id", .jstr "n"),
                               (.jstr "x", "os_name", .jstr "o")],
         groups := [], memberships := [] }, [])) :=
  ⟨rfl, rfl, rfl, rfl, rfl⟩
